import Mathlib

/-!
Shallow embedding of the motarem device-control gateway (Rust) in Lean 4.

The embedding follows the source files:
  src/axis/{state,limit_switches,state_info,movement_parameters,mod}.rs
  src/motor_controller/mod.rs
  src/controller_manager/{command,config,mod}.rs
  src/protocol/{client_command,server_response,mod}.rs
  src/socket_server/{config,mod}.rs

Conventions used throughout:
  - `f64` values are carried around but never computed with in the code
    under study, so they are embedded as an opaque bit-pattern wrapper `F64`.
  - `anyhow::Result<T>` becomes `Except String T` (errors are their
    formatted messages).
  - Rust trait objects (`dyn Axis`, `dyn MotorController`) become structures
    whose fields are the (dynamically dispatched) methods; the trait's
    default method bodies are separate definitions over those structures.
  - `HashMap<String, _>` registries become association lists with unique
    keys; the moka cache becomes an association list of
    (key, value, insertion time) together with the optional time-to-live
    configured at construction, with time as a `Nat` tick counter.
  - The single-task dispatch loop becomes a structural recursion over the
    arrival-ordered list of queued commands, emitting an event trace;
    oneshot response channels become `Nat` identifiers and the send on a
    channel becomes an emitted (channel, result) pair.
  - The connection-acceptance concurrency of the socket server becomes a
    small-step transition relation over an explicit server state.
-/

/-- Opaque stand-in for Rust `f64`: the code under study only moves these
values around, never computes with them, so the bit pattern suffices. -/
structure F64 where
  bits : Nat
deriving DecidableEq, Repr

/-- Source src/axis/state.rs: `enum AxisState`. -/
inductive AxisState
  | On
  | Moving
  | Alarm
  | Fault
  | Unknown
deriving DecidableEq, Repr

/-- Debug formatting `format!("{:?}", state)` of `AxisState` (its derived Debug form). -/
def AxisState.debugFmt : AxisState → String
  | .On => "On"
  | .Moving => "Moving"
  | .Alarm => "Alarm"
  | .Fault => "Fault"
  | .Unknown => "Unknown"

/-- Source src/axis/limit_switches.rs: `enum LimitSwitches`. -/
inductive LimitSwitches
  | NoneActive
  | Upper
  | Lower
  | Both
deriving DecidableEq, Repr

/-- Debug formatting `format!("{:?}", limit_switches)` of `LimitSwitches` (derived Debug form;
the Rust variant rendered "None" is `NoneActive` here to avoid clashing with
`Option.none`). -/
def LimitSwitches.debugFmt : LimitSwitches → String
  | .NoneActive => "None"
  | .Upper => "Upper"
  | .Lower => "Lower"
  | .Both => "Both"

/-- Source src/axis/state_info.rs: `struct AxisStateInfo`. -/
structure AxisStateInfo where
  state : AxisState
  message : Option String
  limit_switches : LimitSwitches

/-- Source src/axis/movement_parameters.rs: `struct MovementParams`
(`custom: HashMap<String, f64>` as an association list). -/
structure MovementParams where
  velocity : Option F64
  acceleration : Option F64
  deceleration : Option F64
  custom : List (String × F64)

/-- Minimal JSON value model for `serde_json::Value` as produced by the
handlers (`json!` literals and cached values). -/
inductive Json
  | null
  | bool (b : Bool)
  | num (x : F64)
  | str (s : String)
  | arr (xs : List Json)
  | obj (fields : List (String × Json))

/-- Serialization `json!` of a Rust `Option<String>`: `None` serializes to JSON null. -/
def Json.ofOptionString : Option String → Json
  | none => .null
  | some s => .str s

/-- Source src/axis/mod.rs: `trait Axis` as a record of its dynamically dispatched
methods. -/
structure Axis where
  name : String
  start : F64 → Option MovementParams → Except String Unit
  stop : Except String Unit
  get_state : Except String AxisStateInfo
  get_attribute : String → Except String F64
  get_position : Except String F64
  get_available_params : Except String (List String)
  get_supported_movement_params : Except String (List String)

/-- Source src/motor_controller/mod.rs: `trait MotorController` as a record of its
dynamically dispatched methods (the default bodies are the `..._default`
definitions below). -/
structure MotorController where
  name : String
  axes : List Axis
  get_axis : String → Except String Axis
  shutdown : Except String Unit
  start : String → F64 → Option MovementParams → Except String Unit
  stop : String → Except String Unit
  state : String → Except String AxisStateInfo
  get_attribute : String → String → Except String F64
  get_available_attributes : String → Except String (List String)
  get_supported_movement_params : String → Except String (List String)

/-- Default body of `MotorController::get_axis`: linear search of `axes()`
by name, "Axis not found" otherwise. -/
def MotorController.get_axis_default (c : MotorController) (axis : String) :
    Except String Axis :=
  match c.axes.find? (fun a => a.name == axis) with
  | some ax => .ok ax
  | none => .error ("Axis not found: " ++ axis ++ " in controller " ++ c.name)

/-- Default body of `MotorController::get_available_attributes`: resolve the
axis and delegate to `Axis::get_available_params`. -/
def MotorController.get_available_attributes_default (c : MotorController)
    (axis : String) : Except String (List String) := do
  let ax ← c.get_axis axis
  ax.get_available_params

/-- Default body of `MotorController::get_attribute` (mod.rs lines 47-55):
fetch the available-attribute list, reject unknown names with
"Attribute not supported", then resolve the axis and delegate. -/
def MotorController.get_attribute_default (c : MotorController)
    (axis attr : String) : Except String F64 := do
  let supported_attributes ← c.get_available_attributes axis
  if !(supported_attributes.contains attr) then
    .error ("Attribute not supported: " ++ attr)
  else do
    let ax ← c.get_axis axis
    ax.get_attribute attr

/-- Default body of `MotorController::start`: resolve the axis, delegate. -/
def MotorController.start_default (c : MotorController) (axis : String)
    (target : F64) (params : Option MovementParams) : Except String Unit := do
  let ax ← c.get_axis axis
  ax.start target params

/-- Default body of `MotorController::stop`: resolve the axis, delegate. -/
def MotorController.stop_default (c : MotorController) (axis : String) :
    Except String Unit := do
  let ax ← c.get_axis axis
  ax.stop

/-- Default body of `MotorController::shutdown`: stop every axis in
sequence, propagating the first failure. -/
def MotorController.shutdown_default (c : MotorController) :
    Except String Unit :=
  go c.axes
where
  go : List Axis → Except String Unit
    | [] => .ok ()
    | ax :: rest => do
        let _ ← ax.stop
        go rest

/-- The controller registry `HashMap<String, Arc<dyn MotorController>>`
as an association list. -/
abbrev Registry := List (String × MotorController)

/-- HashMap lookup on the registry model. -/
def lookupReg : Registry → String → Option MotorController
  | [], _ => none
  | (k, v) :: rest, name => if k = name then some v else lookupReg rest name

/-- HashMap remove on the registry model. -/
def eraseReg : Registry → String → Registry
  | [], _ => []
  | (k, v) :: rest, name =>
      if k = name then eraseReg rest name else (k, v) :: eraseReg rest name

/-- HashMap insert (overwriting) on the registry model. -/
def insertReg (reg : Registry) (name : String) (c : MotorController) :
    Registry :=
  (name, c) :: eraseReg reg name

/-- Model of the moka `Cache<String, Value>` actually used by the manager:
an association list of (key, value, insertion time) plus the expiry
configuration chosen at `Cache::builder()` time.  Time is an abstract tick
counter.  `capacity` records `max_capacity`; size-based eviction is
irrelevant to every claim studied here and is not modelled. -/
structure TimedCache where
  ttl : Option Nat
  capacity : Nat
  entries : List (String × Json × Nat)

/-- Raw (expiry-ignorant) lookup of a cache key. -/
def TimedCache.find (c : TimedCache) (k : String) : Option (Json × Nat) :=
  go c.entries
where
  go : List (String × Json × Nat) → Option (Json × Nat)
    | [] => none
    | (k', v, t) :: rest => if k' = k then some (v, t) else go rest

/-- moka `cache.get(&key)` at time `now`: an entry inserted at `t` is live
while `now < t + ttl` when a time-to-live was configured, and forever when
none was. -/
def TimedCache.get (c : TimedCache) (now : Nat) (k : String) : Option Json :=
  match c.find k with
  | none => none
  | some (v, t) =>
      match c.ttl with
      | none => some v
      | some d => if now < t + d then some v else none

/-- Removal of a key from the cache's entry list. -/
def removeKey : List (String × Json × Nat) → String → List (String × Json × Nat)
  | [], _ => []
  | (k', v, t) :: rest, k =>
      if k' = k then removeKey rest k else (k', v, t) :: removeKey rest k

/-- moka `cache.insert(key, value)` at time `now`. -/
def TimedCache.insert (c : TimedCache) (now : Nat) (k : String) (v : Json) :
    TimedCache :=
  { c with entries := (k, v, now) :: removeKey c.entries k }

/-- moka `cache.invalidate(&key)`. -/
def TimedCache.invalidate (c : TimedCache) (k : String) : TimedCache :=
  { c with entries := removeKey c.entries k }

/-- Source src/controller_manager/config.rs: `struct ManagerConfig`
(`Duration` as abstract ticks). -/
structure ManagerConfig where
  default_ttl : Nat
  cache_capacity : Nat

/-- The tasks `ControllerManager::new` spawns. -/
inductive SpawnedTask
  | command_loop
deriving DecidableEq, Repr

/-- The manager state shared between the public handles and the dispatch
loop (controllers registry and cache; the mpsc channel pair is modelled by
the command list fed to `command_loop` below). -/
structure ControllerManager where
  controllers : Registry
  cache : TimedCache
  config : ManagerConfig

/-- Source src/controller_manager/mod.rs lines 23-42, `ControllerManager::new`:
builds the cache via `Cache::builder().max_capacity(config.cache_capacity)
.build()` — note that no `time_to_live` is configured, so the built cache
has `ttl := none` — and spawns the single `command_loop` task.  Returns the
manager together with the list of tasks spawned. -/
def ControllerManager.new (config : ManagerConfig) :
    ControllerManager × List SpawnedTask :=
  let cache : TimedCache :=
    { ttl := none, capacity := config.cache_capacity, entries := [] }
  ({ controllers := [], cache := cache, config := config },
   [SpawnedTask.command_loop])

/-- Source src/controller_manager/command.rs: `enum Command`; the oneshot response
sender is modelled by a channel identifier. -/
inductive Command
  | move (controller axis : String) (target : F64)
      (params : Option MovementParams) (resp : Nat)
  | stopCmd (controller axis : String) (resp : Nat)
  | getState (controller axis : String) (resp : Nat)
  | getPos (controller axis : String) (resp : Nat)
  | getAttr (controller axis attr : String) (resp : Nat)
  | getAvailableParams (controller axis : String) (resp : Nat)
  | getSupportedMovementParams (controller axis : String) (resp : Nat)
  | listControllers (resp : Nat)
  | listAxes (controller : String) (resp : Nat)

/-- The response channel carried by a command. -/
def Command.resp : Command → Nat
  | .move _ _ _ _ r => r
  | .stopCmd _ _ r => r
  | .getState _ _ r => r
  | .getPos _ _ r => r
  | .getAttr _ _ _ r => r
  | .getAvailableParams _ _ r => r
  | .getSupportedMovementParams _ _ r => r
  | .listControllers r => r
  | .listAxes _ r => r

instance : Inhabited Command := ⟨Command.listControllers 0⟩

/-- Method `ControllerManager::register_controller` (mod.rs lines 44-53): insert
(overwriting) into the registry, always `Ok(())`.  The trailing list records
which controllers had `shutdown()` invoked during the call (none). -/
def register_controller (reg : Registry) (name : String)
    (controller : MotorController) :
    Except String Unit × Registry × List String :=
  (.ok (), insertReg reg name controller, [])

/-- Method `ControllerManager::unregister_controller` (mod.rs lines 55-61): remove
the entry if present and drive the removed controller's `shutdown()`,
propagating its failure; absent names fall through to `Ok(())`.  The
trailing list records which controllers had `shutdown()` invoked. -/
def unregister_controller (reg : Registry) (name : String) :
    Except String Unit × Registry × List String :=
  match lookupReg reg name with
  | none => (.ok (), reg, [])
  | some ctrl =>
      (do let _ ← ctrl.shutdown; .ok (), eraseReg reg name, [name])

/-- Handler `ControllerManager::handle_move` (mod.rs lines 166-184).  Returns the
handler result together with the cache as left by the handler. -/
def handle_move (controllers : Registry) (cache : TimedCache)
    (controller axis : String) (target : F64)
    (params : Option MovementParams) : Except String Json × TimedCache :=
  match lookupReg controllers controller with
  | none => (.error ("Controller not found: " ++ controller), cache)
  | some ctrl =>
      match ctrl.start axis target params with
      | .error e => (.error e, cache)
      | .ok _ =>
          let cache_key := controller ++ "::" ++ axis ++ "::position"
          (.ok (Json.obj [("status", .str "ok"), ("action", .str "move"),
              ("target", .num target)]),
           cache.invalidate cache_key)

/-- Handler `ControllerManager::handle_stop` (mod.rs lines 186-197). -/
def handle_stop (controllers : Registry) (controller axis : String) :
    Except String Json :=
  match lookupReg controllers controller with
  | none => .error ("Controller not found: " ++ controller)
  | some ctrl =>
      match ctrl.stop axis with
      | .error e => .error e
      | .ok _ => .ok (Json.obj [("status", .str "ok"), ("action", .str "stop")])

/-- Handler `ControllerManager::handle_get_pos` (mod.rs lines 199-227); `now` is the
current cache clock tick. -/
def handle_get_pos (controllers : Registry) (cache : TimedCache) (now : Nat)
    (controller axis : String) : Except String Json × TimedCache :=
  let cache_key := controller ++ "::" ++ axis ++ "::position"
  match cache.get now cache_key with
  | some val =>
      (.ok (Json.obj [("controller", .str controller), ("axis", .str axis),
          ("position", val)]), cache)
  | none =>
      match lookupReg controllers controller with
      | none => (.error ("Controller not found: " ++ controller), cache)
      | some ctrl =>
          match ctrl.get_axis axis with
          | .error e => (.error e, cache)
          | .ok ax =>
              match ax.get_position with
              | .error e => (.error e, cache)
              | .ok pos =>
                  let value := Json.num pos
                  (.ok (Json.obj [("controller", .str controller),
                      ("axis", .str axis), ("position", value)]),
                   cache.insert now cache_key value)

/-- Handler `ControllerManager::handle_get_state` (mod.rs lines 229-252). -/
def handle_get_state (controllers : Registry) (cache : TimedCache)
    (now : Nat) (controller axis : String) :
    Except String Json × TimedCache :=
  let cache_key := controller ++ "::" ++ axis ++ "::status"
  match cache.get now cache_key with
  | some val =>
      (.ok (Json.obj [("controller", .str controller), ("axis", .str axis),
          ("status", val)]), cache)
  | none =>
      match lookupReg controllers controller with
      | none => (.error ("Controller not found: " ++ controller), cache)
      | some ctrl =>
          match ctrl.get_axis axis with
          | .error e => (.error e, cache)
          | .ok ax =>
              match ax.get_state with
              | .error e => (.error e, cache)
              | .ok state_info =>
                  let status_json := Json.obj
                    [("state", .str state_info.state.debugFmt),
                     ("message", Json.ofOptionString state_info.message),
                     ("limit_switches",
                      .str state_info.limit_switches.debugFmt)]
                  (.ok (Json.obj [("controller", .str controller),
                      ("axis", .str axis), ("status", status_json)]),
                   cache.insert now cache_key status_json)

/-- Handler `ControllerManager::handle_get_attr` (mod.rs lines 254-277). -/
def handle_get_attr (controllers : Registry) (cache : TimedCache)
    (now : Nat) (controller axis attr : String) :
    Except String Json × TimedCache :=
  let cache_key := controller ++ "::" ++ axis ++ "::" ++ attr
  match cache.get now cache_key with
  | some val =>
      (.ok (Json.obj [("controller", .str controller), ("axis", .str axis),
          ("attribute", .str attr), ("value", val)]), cache)
  | none =>
      match lookupReg controllers controller with
      | none => (.error ("Controller not found: " ++ controller), cache)
      | some ctrl =>
          match ctrl.get_attribute axis attr with
          | .error e => (.error e, cache)
          | .ok value =>
              let json_value := Json.num value
              (.ok (Json.obj [("controller", .str controller),
                  ("axis", .str axis), ("attribute", .str attr),
                  ("value", json_value)]),
               cache.insert now cache_key json_value)

/-- Handler `ControllerManager::handle_get_available_params` (mod.rs lines 279-290):
takes no cache at all. -/
def handle_get_available_params (controllers : Registry)
    (controller axis : String) : Except String Json :=
  match lookupReg controllers controller with
  | none => .error ("Controller not found: " ++ controller)
  | some ctrl =>
      match ctrl.get_available_attributes axis with
      | .error e => .error e
      | .ok params =>
          .ok (Json.obj [("controller", .str controller),
              ("axis", .str axis),
              ("available_params", .arr (params.map Json.str))])

/-- Handler `ControllerManager::handle_get_supported_movement_params`
(mod.rs lines 292-303): takes no cache at all. -/
def handle_get_supported_movement_params (controllers : Registry)
    (controller axis : String) : Except String Json :=
  match lookupReg controllers controller with
  | none => .error ("Controller not found: " ++ controller)
  | some ctrl =>
      match ctrl.get_supported_movement_params axis with
      | .error e => .error e
      | .ok params =>
          .ok (Json.obj [("controller", .str controller),
              ("axis", .str axis),
              ("supported_movement_params", .arr (params.map Json.str))])

/-- Handler `ControllerManager::handle_list_controllers` (mod.rs lines 305-311). -/
def handle_list_controllers (controllers : Registry) : Except String Json :=
  .ok (Json.obj [("controllers",
      .arr ((controllers.map Prod.fst).map Json.str))])

/-- Handler `ControllerManager::handle_list_axes` (mod.rs lines 313-325). -/
def handle_list_axes (controllers : Registry) (controller : String) :
    Except String Json :=
  match lookupReg controllers controller with
  | none => .error ("Controller not found: " ++ controller)
  | some ctrl =>
      .ok (Json.obj [("controller", .str controller),
          ("axes", .arr ((ctrl.axes.map Axis.name).map Json.str))])

/-- The mutable state the dispatch loop works over (registry and cache). -/
structure MState where
  controllers : Registry
  cache : TimedCache

/-- One iteration body of `ControllerManager::command_loop` (mod.rs lines
81-162): run the handler matching the dequeued command, then perform
`let _ = resp.send(result)`.  The second component lists the oneshot sends
performed by the iteration as (channel, result) pairs, in order. -/
def dispatch (st : MState) (now : Nat) :
    Command → MState × List (Nat × Except String Json)
  | .move controller axis target params resp =>
      let (result, cache') :=
        handle_move st.controllers st.cache controller axis target params
      ({ st with cache := cache' }, [(resp, result)])
  | .stopCmd controller axis resp =>
      (st, [(resp, handle_stop st.controllers controller axis)])
  | .getState controller axis resp =>
      let (result, cache') :=
        handle_get_state st.controllers st.cache now controller axis
      ({ st with cache := cache' }, [(resp, result)])
  | .getPos controller axis resp =>
      let (result, cache') :=
        handle_get_pos st.controllers st.cache now controller axis
      ({ st with cache := cache' }, [(resp, result)])
  | .getAttr controller axis attr resp =>
      let (result, cache') :=
        handle_get_attr st.controllers st.cache now controller axis attr
      ({ st with cache := cache' }, [(resp, result)])
  | .getAvailableParams controller axis resp =>
      (st, [(resp, handle_get_available_params st.controllers controller axis)])
  | .getSupportedMovementParams controller axis resp =>
      (st, [(resp,
        handle_get_supported_movement_params st.controllers controller axis)])
  | .listControllers resp =>
      (st, [(resp, handle_list_controllers st.controllers)])
  | .listAxes controller resp =>
      (st, [(resp, handle_list_axes st.controllers controller)])

/-- Trace events of the dispatch loop: taking the `i`-th queued command off
the channel, and sending a result on a response channel for it. -/
inductive LoopEvent
  | dequeue (i : Nat)
  | respond (i : Nat) (chan : Nat) (r : Except String Json)

/-- Loop `ControllerManager::command_loop` (mod.rs lines 76-164) over the
arrival-ordered list of commands the mpsc channel will deliver, starting at
arrival index `i`: a single sequential task that receives one command,
runs its handler to completion, sends the response, and only then receives
the next.  Produces the event trace and the final state.  (The cache clock
`now` is held fixed; no studied claim depends on its progression.) -/
def command_loop (st : MState) (now : Nat) (i : Nat) :
    List Command → List LoopEvent × MState
  | [] => ([], st)
  | c :: rest =>
      let (st', sends) := dispatch st now c
      let (trace, stFin) := command_loop st' now (i + 1) rest
      (.dequeue i :: (sends.map (fun p => LoopEvent.respond i p.1 p.2))
         ++ trace,
       stFin)

/-- The manager state after the dispatch loop has consumed a list of
commands. -/
def stateAfter (st : MState) (now : Nat) (cs : List Command) : MState :=
  cs.foldl (fun s c => (dispatch s now c).1) st

/-- Source src/protocol/client_command.rs: `enum ClientCommand` (each variant
carries the optional request `id`). -/
inductive ClientCommand
  | move (controller axis : String) (target : F64)
      (params : Option MovementParams) (id : Option String)
  | stopCmd (controller axis : String) (id : Option String)
  | getState (controller axis : String) (id : Option String)
  | getPosition (controller axis : String) (id : Option String)
  | getAttribute (controller axis attr : String) (id : Option String)
  | getAvailableParams (controller axis : String) (id : Option String)
  | getSupportedMovementParams (controller axis : String) (id : Option String)
  | listControllers (id : Option String)
  | listAxes (controller : String) (id : Option String)
  | ping (id : Option String)

/-- Accessor `ClientCommand::id` (client_command.rs lines 79-94). -/
def ClientCommand.id : ClientCommand → Option String
  | .move _ _ _ _ i => i
  | .stopCmd _ _ i => i
  | .getState _ _ i => i
  | .getPosition _ _ i => i
  | .getAttribute _ _ _ i => i
  | .getAvailableParams _ _ i => i
  | .getSupportedMovementParams _ _ i => i
  | .listControllers i => i
  | .listAxes _ i => i
  | .ping i => i

/-- Source src/protocol/server_response.rs: `enum ServerResponse`. -/
inductive ServerResponse
  | Success (id : Option String) (data : Json)
  | Error (id : Option String) (message : String) (code : Option String)

/-- Constructor function `ServerResponse::success`. -/
def ServerResponse.success (id : Option String) (data : Json) :
    ServerResponse :=
  .Success id data

/-- Constructor function `ServerResponse::error` (`code: None`). -/
def ServerResponse.mkError (id : Option String) (message : String) :
    ServerResponse :=
  .Error id message none

/-- Method `SocketServer::execute_command` (socket_server/mod.rs lines 180-299).
`mgr` is the oracle for `manager.send_command(cmd)` followed by `rx.await`
on the command's oneshot channel (either may fail — both surface as an
error result); `ts` is the oracle for `chrono::Utc::now().to_rfc3339()`.
The second component lists the commands placed on the Manager's queue. -/
def execute_command (mgr : Command → Except String Json) (ts : String) :
    ClientCommand → Except String Json × List Command
  | .move controller axis target params _ =>
      let cmd := Command.move controller axis target params 0
      (mgr cmd, [cmd])
  | .stopCmd controller axis _ =>
      let cmd := Command.stopCmd controller axis 0
      (mgr cmd, [cmd])
  | .getState controller axis _ =>
      let cmd := Command.getState controller axis 0
      (mgr cmd, [cmd])
  | .getPosition controller axis _ =>
      let cmd := Command.getPos controller axis 0
      (mgr cmd, [cmd])
  | .getAttribute controller axis attr _ =>
      let cmd := Command.getAttr controller axis attr 0
      (mgr cmd, [cmd])
  | .getAvailableParams controller axis _ =>
      let cmd := Command.getAvailableParams controller axis 0
      (mgr cmd, [cmd])
  | .getSupportedMovementParams controller axis _ =>
      let cmd := Command.getSupportedMovementParams controller axis 0
      (mgr cmd, [cmd])
  | .listControllers _ =>
      let cmd := Command.listControllers 0
      (mgr cmd, [cmd])
  | .listAxes controller _ =>
      let cmd := Command.listAxes controller 0
      (mgr cmd, [cmd])
  | .ping _ =>
      (.ok (Json.obj [("message", .str "pong"), ("timestamp", .str ts)]), [])

/-- Method `SocketServer::process_command` (socket_server/mod.rs lines 162-178).
`parse` is the oracle for `parse_command` (serde decoding of the line, an
external collaborator); its error is the formatted `ProtocolError`.  The
second component lists the commands that reached the Manager's queue. -/
def process_command (parse : String → Except String ClientCommand)
    (mgr : Command → Except String Json) (ts : String) (line : String) :
    ServerResponse × List Command :=
  match parse line with
  | .error e =>
      (ServerResponse.mkError none ("Failed to parse command: " ++ e), [])
  | .ok command =>
      let command_id := command.id
      let (result, sent) := execute_command mgr ts command
      match result with
      | .ok data => (ServerResponse.success command_id data, sent)
      | .error e => (ServerResponse.mkError command_id e, sent)

/-- The per-connection loop of `SocketServer::handle_client`
(socket_server/mod.rs lines 120-160) over the stream of framed line reads:
`.ok line` is `Some(Ok(line))`, `.error e` is `Some(Err(e))` (which breaks
the loop), and the end of the input list is `None` (peer disconnect).
Responses are the lines written back, in order.  (The response-write
failure and shutdown-signal break paths both end the connection without
observing further input; they are modelled by truncating the input.) -/
def handle_client (parse : String → Except String ClientCommand)
    (mgr : Command → Except String Json) (ts : String) :
    List (Except String String) → List ServerResponse
  | [] => []
  | .error _ :: _ => []
  | .ok line :: rest =>
      (process_command parse mgr ts line).1
        :: handle_client parse mgr ts rest

/-- Source src/socket_server/config.rs: the part of `SocketServerConfig` the
admission-control model needs. -/
structure SocketServerConfig where
  max_connections : Nat

/-- Where the single acceptance loop stands between its two atomic counter
operations: `idle` = about to `listener.accept()` / load the counter,
`admitting` = passed the ceiling check, about to `fetch_add`. -/
inductive AcceptorPhase
  | idle
  | admitting
deriving DecidableEq, Repr

/-- Observable state of `SocketServer::start`'s spawned acceptance loop and
its client-handler tasks: the shared `active_connections` atomic counter,
the number of spawned client handlers still running, and the acceptance
loop's position. -/
structure ServerState where
  active_connections : Nat
  handlers : Nat
  phase : AcceptorPhase
deriving DecidableEq, Repr

/-- Interleaved small steps of the acceptance loop (socket_server/mod.rs
lines 58-101) and the client-handler tasks it spawns, for a configured
ceiling `max`:
  - `check_accept` / `check_reject`: the loop loads `active_connections` and
    compares it with `max_connections`; at or above the ceiling the new
    connection is dropped with a warning and the loop continues (no handler
    is spawned, nothing is queued);
  - `accept_incr`: below the ceiling the loop does `fetch_add(1)` and spawns
    the connection's handler task;
  - `handler_done`: a running handler finishes — with `ok = true` for a
    clean `handle_client` return and `ok = false` for an error return, the
    decrement happening in both cases — and does `fetch_sub(1)`.
Handlers run concurrently with the loop, so `handler_done` interleaves
anywhere; the two counter accesses of an admission are separated by the
`admitting` phase. -/
inductive ServerStep (max : Nat) : ServerState → ServerState → Prop
  | check_accept {s : ServerState} (h : s.phase = .idle)
      (hlt : s.active_connections < max) :
      ServerStep max s { s with phase := .admitting }
  | check_reject {s : ServerState} (h : s.phase = .idle)
      (hge : max ≤ s.active_connections) :
      ServerStep max s s
  | accept_incr {s : ServerState} (h : s.phase = .admitting) :
      ServerStep max s
        { active_connections := s.active_connections + 1,
          handlers := s.handlers + 1, phase := .idle }
  | handler_done {s : ServerState} (ok : Bool) (h : 0 < s.handlers) :
      ServerStep max s
        { s with active_connections := s.active_connections - 1,
                 handlers := s.handlers - 1 }

/-- The server starts with a zeroed counter, no handlers, and the loop at
its `select!`. -/
def ServerState.init : ServerState :=
  { active_connections := 0, handlers := 0, phase := .idle }

/-- States the spawned acceptance loop can reach from the initial state. -/
inductive ServerReaches (max : Nat) : ServerState → Prop
  | init : ServerReaches max ServerState.init
  | step {s s' : ServerState} (hr : ServerReaches max s)
      (hs : ServerStep max s s') : ServerReaches max s'

/-- A concrete axis used to instantiate theorems on closed inputs. -/
def sampleAxis : Axis :=
  { name := "X"
    start := fun _ _ => .ok ()
    stop := .ok ()
    get_state := .ok { state := .On, message := none,
                       limit_switches := .NoneActive }
    get_attribute := fun _ => .ok ⟨7⟩
    get_position := .ok ⟨7⟩
    get_available_params := .ok ["position"]
    get_supported_movement_params :=
      .ok ["velocity", "acceleration", "deceleration"] }

/-- A concrete controller (axis `"X"`) used to instantiate theorems. -/
def sampleController : MotorController :=
  { name := "c1"
    axes := [sampleAxis]
    get_axis := fun a =>
      if a = "X" then .ok sampleAxis
      else .error ("Axis not found: " ++ a ++ " in controller c1")
    shutdown := .ok ()
    start := fun _ _ _ => .ok ()
    stop := fun _ => .ok ()
    state := fun _ => .ok { state := .On, message := none,
                            limit_switches := .NoneActive }
    get_attribute := fun _ _ => .ok ⟨7⟩
    get_available_attributes := fun _ => .ok ["position"]
    get_supported_movement_params := fun _ => .ok ["velocity"] }

/-- A second concrete controller with the same available-attribute method
as `sampleController` but a different axis resolution and axis attribute
reader, used to observe which methods a code path consults. -/
def sampleController2 : MotorController :=
  { sampleController with
      get_axis := fun _ => .error "no axis"
      axes := []
      get_attribute := fun _ _ => .ok ⟨99⟩ }

/-- A concrete cache holding a stale position entry for `c1::X`. -/
def sampleCache : TimedCache :=
  { ttl := none, capacity := 100,
    entries := [("c1::X::position", Json.num ⟨1⟩, 0),
                ("c1::X::speed", Json.num ⟨3⟩, 0)] }

theorem lookupReg_eraseReg_self (reg : Registry) (name : String) :
    lookupReg (eraseReg reg name) name = none := by
  induction reg with
  | nil => rfl
  | cons p rest ih =>
      by_cases hp : p.1 = name
      · simpa [eraseReg, hp] using ih
      · simpa [eraseReg, hp, lookupReg] using ih

theorem lookupReg_eraseReg_ne (reg : Registry) (name k : String)
    (h : k ≠ name) :
    lookupReg (eraseReg reg name) k = lookupReg reg k := by
  induction reg with
  | nil => rfl
  | cons p rest ih =>
      by_cases hp : p.1 = name
      · have hk : ¬ p.1 = k := fun hc => h (hc ▸ hp)
        simpa [eraseReg, hp, lookupReg, hk, Ne.symm h] using ih
      · by_cases hk : p.1 = k
        · simp [eraseReg, hp, lookupReg, hk, h]
        · simpa [eraseReg, hp, lookupReg, hk] using ih

theorem findGo_removeKey_self (l : List (String × Json × Nat)) (k : String) :
    TimedCache.find.go k (removeKey l k) = none := by
  induction l with
  | nil => rfl
  | cons e rest ih =>
      by_cases he : e.1 = k
      · simpa [removeKey, he] using ih
      · simpa [removeKey, he, TimedCache.find.go] using ih

theorem findGo_removeKey_ne (l : List (String × Json × Nat)) (k k' : String)
    (h : k' ≠ k) :
    TimedCache.find.go k' (removeKey l k) = TimedCache.find.go k' l := by
  induction l with
  | nil => rfl
  | cons e rest ih =>
      by_cases he : e.1 = k
      · have hk : ¬ e.1 = k' := fun hc => h (hc ▸ he)
        simpa [removeKey, he, TimedCache.find.go, hk, Ne.symm h] using ih
      · by_cases hk : e.1 = k'
        · simp [removeKey, he, TimedCache.find.go, hk, h]
        · simpa [removeKey, he, TimedCache.find.go, hk] using ih

theorem get_invalidate_self (c : TimedCache) (k : String) (t : Nat) :
    (c.invalidate k).get t k = none := by
  simp [TimedCache.get, TimedCache.find, TimedCache.invalidate,
    findGo_removeKey_self]

theorem get_invalidate_ne (c : TimedCache) (k k' : String) (t : Nat)
    (h : k' ≠ k) :
    (c.invalidate k).get t k' = c.get t k' := by
  simp [TimedCache.get, TimedCache.find, TimedCache.invalidate,
    findGo_removeKey_ne _ _ _ h]

/-- C10: `register_controller` always returns Ok (it has no failure path);
a controller already registered under the name is silently replaced — the
new instance is what the registry now holds — and the registration path
never invokes any controller's `shutdown()` (its shutdown-call log is
empty; the `controller.initialize()` line is commented out in the
source). -/
theorem register_controller_always_ok_never_shuts_down
    (reg : Registry) (name : String) (c : MotorController) :
    (register_controller reg name c).1 = .ok () ∧
    lookupReg (register_controller reg name c).2.1 name = some c ∧
    (register_controller reg name c).2.2 = [] := by
  refine ⟨rfl, ?_, rfl⟩
  simp [register_controller, insertReg, lookupReg]

/-- C8: `unregister_controller` on an absent name is a no-op success (the
result is Ok, the registry is untouched, no shutdown is invoked); on a
registered name it removes that entry (other entries are preserved),
invokes exactly that controller's `shutdown()`, and its result is the
propagated shutdown result. -/
theorem unregister_controller_spec (reg : Registry) (name : String) :
    (lookupReg reg name = none →
       unregister_controller reg name = (.ok (), reg, [])) ∧
    (∀ ctrl, lookupReg reg name = some ctrl →
       (unregister_controller reg name).2.2 = [name] ∧
       lookupReg (unregister_controller reg name).2.1 name = none ∧
       (∀ k, k ≠ name →
          lookupReg (unregister_controller reg name).2.1 k =
            lookupReg reg k) ∧
       (unregister_controller reg name).1 =
         (do let _ ← ctrl.shutdown; (.ok () : Except String Unit))) := by
  constructor
  · intro h
    simp [unregister_controller, h]
  · intro ctrl h
    refine ⟨?_, ?_, ?_, ?_⟩
    · simp [unregister_controller, h]
    · simp [unregister_controller, h, lookupReg_eraseReg_self]
    · intro k hk
      simp [unregister_controller, h, lookupReg_eraseReg_ne _ _ _ hk]
    · simp [unregister_controller, h]

/-- Closed instance of `unregister_controller_spec`: on the empty registry
the call is a no-op success, and on a registry holding `"c1"` it removes
the entry, logs exactly one shutdown call, and returns the controller's
shutdown result. -/
theorem unregister_controller_spec_witness :
    unregister_controller [] "c1" = (.ok (), [], []) ∧
    (unregister_controller [("c1", sampleController)] "c1").2.2 = ["c1"] ∧
    lookupReg (unregister_controller [("c1", sampleController)] "c1").2.1
      "c1" = none ∧
    lookupReg (unregister_controller [("c1", sampleController)] "c1").2.1
      "c2" = lookupReg [("c1", sampleController)] "c2" ∧
    (unregister_controller [("c1", sampleController)] "c1").1 =
      (do let _ ← sampleController.shutdown
          (.ok () : Except String Unit)) := by
  refine ⟨(unregister_controller_spec [] "c1").1 rfl, ?_⟩
  have h := (unregister_controller_spec
    [("c1", sampleController)] "c1").2 sampleController rfl
  exact ⟨h.1, h.2.1, h.2.2.1 "c2" (by decide), h.2.2.2⟩

/-- C9: dispatching GetAvailableParams or GetSupportedMovementParams leaves
the cache exactly as it was, and the response sent is independent of the
cache contents (so it is never served from a cached value). -/
theorem get_params_commands_never_touch_cache
    (ctrls : Registry) (cache₁ cache₂ : TimedCache) (now : Nat)
    (controller axis : String) (r : Nat) :
    (dispatch ⟨ctrls, cache₁⟩ now
        (.getAvailableParams controller axis r)).1.cache = cache₁ ∧
    (dispatch ⟨ctrls, cache₁⟩ now
        (.getSupportedMovementParams controller axis r)).1.cache = cache₁ ∧
    (dispatch ⟨ctrls, cache₁⟩ now
        (.getAvailableParams controller axis r)).2 =
      (dispatch ⟨ctrls, cache₂⟩ now
        (.getAvailableParams controller axis r)).2 ∧
    (dispatch ⟨ctrls, cache₁⟩ now
        (.getSupportedMovementParams controller axis r)).2 =
      (dispatch ⟨ctrls, cache₂⟩ now
        (.getSupportedMovementParams controller axis r)).2 :=
  ⟨rfl, rfl, rfl, rfl⟩

/-- C4: every dequeued command causes exactly one send, on that command's
own response channel — the handler result, success or error (including the
early controller-not-found error), is always delivered there, and no
dispatch path sends twice or drops the result. -/
theorem dispatch_sends_exactly_once (st : MState) (now : Nat)
    (cmd : Command) :
    ∃ r, (dispatch st now cmd).2 = [(cmd.resp, r)] := by
  cases cmd <;> exact ⟨_, rfl⟩

/-- C2 (failing-input evaluation): the cache built by
`ControllerManager::new` has no time-to-live configured — `default_ttl` is
never passed to the builder — so an entry inserted at tick 0 is still
returned by a get at tick `default_ttl + 1`, contradicting expiry after
the configured TTL. -/
theorem cache_entry_survives_default_ttl :
    ((ControllerManager.new
        { default_ttl := 5, cache_capacity := 100 }).1.cache).ttl = none ∧
    (((ControllerManager.new
        { default_ttl := 5, cache_capacity := 100 }).1.cache).insert 0
        "c1::X::position" (Json.num ⟨42⟩)).get 6 "c1::X::position" =
      some (Json.num ⟨42⟩) :=
  ⟨rfl, rfl⟩

/-- C6: the default `MotorController::get_attribute` first consults the
available-attribute list: when the requested name is absent from the list
it returns "Attribute not supported" and its outcome is independent of the
controller's axis resolution and of every axis method (so the axis's own
`get_attribute` is never called); only when the name is present does it
resolve the axis and delegate to the axis's `get_attribute`. -/
theorem get_attribute_default_validates_before_delegating
    (c₁ c₂ : MotorController) (axis attr : String) (l : List String)
    (hsame : c₁.get_available_attributes = c₂.get_available_attributes)
    (h : c₁.get_available_attributes axis = .ok l) :
    if attr ∈ l then
      MotorController.get_attribute_default c₁ axis attr =
        (c₁.get_axis axis).bind (fun ax => ax.get_attribute attr)
    else
      MotorController.get_attribute_default c₁ axis attr =
          .error ("Attribute not supported: " ++ attr) ∧
      MotorController.get_attribute_default c₁ axis attr =
        MotorController.get_attribute_default c₂ axis attr := by
  by_cases hm : attr ∈ l
  · simp only [hm, if_true]
    simp [MotorController.get_attribute_default, h, hm, Bind.bind,
      Except.bind]
  · simp only [hm, if_false]
    constructor
    · simp [MotorController.get_attribute_default, h, hm, Bind.bind,
        Except.bind]
    · have h₂ : c₂.get_available_attributes axis = .ok l := hsame ▸ h
      simp [MotorController.get_attribute_default, h, h₂, hm, Bind.bind,
        Except.bind]

/-- Closed instance of
`get_attribute_default_validates_before_delegating`: `sampleController` and
`sampleController2` share the available-attribute list `["position"]` but
differ in axis resolution and axis attribute readers; for the unsupported
name "velocity" the default implementation rejects identically on both. -/
theorem get_attribute_default_validates_witness :
    if "velocity" ∈ ["position"] then
      MotorController.get_attribute_default sampleController "X" "velocity" =
        (sampleController.get_axis "X").bind
          (fun ax => ax.get_attribute "velocity")
    else
      MotorController.get_attribute_default sampleController "X" "velocity" =
          .error ("Attribute not supported: " ++ "velocity") ∧
      MotorController.get_attribute_default sampleController "X" "velocity" =
        MotorController.get_attribute_default sampleController2 "X"
          "velocity" :=
  get_attribute_default_validates_before_delegating sampleController
    sampleController2 "X" "velocity" ["position"] rfl rfl

/-- C7: a line that fails to decode produces a structured error response
whose id is absent (and whose code is absent), places no command on the
Manager's queue, and leaves the per-connection loop running: the remaining
lines are processed exactly as they would have been. -/
theorem decode_failure_stays_in_session
    (parse : String → Except String ClientCommand)
    (mgr : Command → Except String Json) (ts line e : String)
    (rest : List (Except String String))
    (h : parse line = .error e) :
    process_command parse mgr ts line =
      (ServerResponse.Error none ("Failed to parse command: " ++ e) none,
       []) ∧
    handle_client parse mgr ts (.ok line :: rest) =
      ServerResponse.Error none ("Failed to parse command: " ++ e) none
        :: handle_client parse mgr ts rest := by
  constructor
  · simp [process_command, h, ServerResponse.mkError]
  · simp [handle_client, process_command, h, ServerResponse.mkError]

/-- Closed instance of `decode_failure_stays_in_session` at a parse oracle
that rejects every line. -/
theorem decode_failure_stays_in_session_witness :
    process_command (fun _ => .error "Invalid JSON: expected value")
        (fun _ => .ok Json.null) "ts" "not json" =
      (ServerResponse.Error none
        ("Failed to parse command: " ++ "Invalid JSON: expected value") none,
       []) ∧
    handle_client (fun _ => .error "Invalid JSON: expected value")
        (fun _ => .ok Json.null) "ts" [.ok "not json", .ok "second"] =
      ServerResponse.Error none
          ("Failed to parse command: " ++ "Invalid JSON: expected value")
          none
        :: handle_client (fun _ => .error "Invalid JSON: expected value")
             (fun _ => .ok Json.null) "ts" [.ok "second"] :=
  decode_failure_stays_in_session (fun _ => .error "Invalid JSON: expected value")
    (fun _ => .ok Json.null) "ts" "not json" "Invalid JSON: expected value"
    [.ok "second"] rfl

/-- C3: when the controller resolves and its `start` succeeds, `handle_move`
returns the structured acknowledgement carrying the requested target and
invalidates exactly the `{controller}::{axis}::position` cache key — that
key reads as absent at every subsequent tick while every other key is
untouched — and a GetPos handled right after on the resulting cache misses
the cache and reports the backend's freshly read position, never a value
cached before the Move. -/
theorem move_invalidates_position_and_acks
    (st : MState) (now₂ : Nat) (controller axis : String) (target : F64)
    (params : Option MovementParams) (ctrl : MotorController)
    (hc : lookupReg st.controllers controller = some ctrl)
    (hs : ctrl.start axis target params = .ok ()) :
    (handle_move st.controllers st.cache controller axis target params).1 =
      .ok (Json.obj [("status", .str "ok"), ("action", .str "move"),
        ("target", .num target)]) ∧
    (∀ t, (handle_move st.controllers st.cache controller axis target
        params).2.get t (controller ++ "::" ++ axis ++ "::position")
        = none) ∧
    (∀ t k, k ≠ controller ++ "::" ++ axis ++ "::position" →
       (handle_move st.controllers st.cache controller axis target
         params).2.get t k = st.cache.get t k) ∧
    (∀ ax pos, ctrl.get_axis axis = .ok ax → ax.get_position = .ok pos →
       (handle_get_pos st.controllers
          (handle_move st.controllers st.cache controller axis target
            params).2 now₂ controller axis).1 =
         .ok (Json.obj [("controller", .str controller),
             ("axis", .str axis), ("position", Json.num pos)])) := by
  have hmove : handle_move st.controllers st.cache controller axis target
      params =
      (.ok (Json.obj [("status", .str "ok"), ("action", .str "move"),
        ("target", .num target)]),
       st.cache.invalidate (controller ++ "::" ++ axis ++ "::position")) := by
    simp [handle_move, hc, hs]
  refine ⟨by rw [hmove], ?_, ?_, ?_⟩
  · intro t
    rw [hmove]
    exact get_invalidate_self _ _ _
  · intro t k hk
    rw [hmove]
    exact get_invalidate_ne _ _ _ _ hk
  · intro ax pos hax hpos
    rw [hmove]
    simp [handle_get_pos, get_invalidate_self, hc, hax, hpos]

/-- Closed instance of `move_invalidates_position_and_acks` on a registry
holding `sampleController` and a cache holding a stale position for
`c1::X`: the ack is returned, the stale position entry is gone while the
neighbouring key survives, and the immediate GetPos reports the backend's
fresh position 7, not the stale cached 1. -/
theorem move_invalidates_position_witness :
    (handle_move [("c1", sampleController)] sampleCache "c1" "X" ⟨100⟩
        none).1 =
      .ok (Json.obj [("status", .str "ok"), ("action", .str "move"),
        ("target", .num ⟨100⟩)]) ∧
    (handle_move [("c1", sampleController)] sampleCache "c1" "X" ⟨100⟩
        none).2.get 0 ("c1" ++ "::" ++ "X" ++ "::position") = none ∧
    (handle_move [("c1", sampleController)] sampleCache "c1" "X" ⟨100⟩
        none).2.get 0 "c1::X::speed" = sampleCache.get 0 "c1::X::speed" ∧
    (handle_get_pos [("c1", sampleController)]
        (handle_move [("c1", sampleController)] sampleCache "c1" "X" ⟨100⟩
          none).2 1 "c1" "X").1 =
      .ok (Json.obj [("controller", .str "c1"), ("axis", .str "X"),
        ("position", Json.num ⟨7⟩)]) := by
  have h := move_invalidates_position_and_acks
    ⟨[("c1", sampleController)], sampleCache⟩ 1 "c1" "X" ⟨100⟩ none
    sampleController rfl rfl
  exact ⟨h.1, h.2.1 0, h.2.2.1 0 "c1::X::speed" (by decide),
    h.2.2.2 sampleAxis ⟨7⟩ rfl rfl⟩

/-- Inductive invariant of the acceptance loop: the counter matches the
number of running handlers, stays within the ceiling, and a passed
admission check (phase `admitting`) guarantees room for the increment. -/
def ServerInv (max : Nat) (s : ServerState) : Prop :=
  s.handlers = s.active_connections ∧
  s.active_connections ≤ max ∧
  (s.phase = .admitting → s.active_connections < max)

theorem serverInv_step {max : Nat} {s s' : ServerState}
    (hinv : ServerInv max s) (hs : ServerStep max s s') :
    ServerInv max s' := by
  obtain ⟨h1, h2, h3⟩ := hinv
  cases hs with
  | check_accept h hlt =>
      exact ⟨h1, h2, fun _ => hlt⟩
  | check_reject h hge =>
      exact ⟨h1, h2, h3⟩
  | accept_incr h =>
      have := h3 h
      refine ⟨by simp [h1], by simp; omega, ?_⟩
      intro hp
      simp at hp
  | handler_done ok h =>
      refine ⟨by simp [h1], by simp; omega, ?_⟩
      intro hp
      simp only at hp
      have := h3 hp
      simp
      omega

theorem serverReaches_inv {max : Nat} {s : ServerState}
    (hr : ServerReaches max s) : ServerInv max s := by
  induction hr with
  | init => exact ⟨rfl, Nat.zero_le _, fun h => by simp [ServerState.init] at h⟩
  | step hr hs ih => exact serverInv_step ih hs

/-- C5: in every reachable server state the connection counter and the
number of running handlers stay at or below `max_connections`; while the
loop sits at the ceiling, no possible step spawns a handler or grows the
counter (a new connection is only declined); and once a handler completes
from a full state, the counter drops below the ceiling and the admission
check for the next connection succeeds. -/
theorem connection_ceiling_enforced (max : Nat) (s : ServerState)
    (hr : ServerReaches max s) :
    s.active_connections ≤ max ∧
    s.handlers ≤ max ∧
    (s.phase = .idle → max ≤ s.active_connections →
       ∀ s', ServerStep max s s' →
         s'.handlers ≤ s.handlers ∧
         s'.active_connections ≤ s.active_connections) ∧
    (s.phase = .idle → s.active_connections = max → 0 < s.handlers →
       ∃ s' s'', ServerStep max s s' ∧ s'.active_connections < max ∧
         ServerStep max s' s'' ∧ s''.phase = .admitting) := by
  obtain ⟨h1, h2, h3⟩ := serverReaches_inv hr
  refine ⟨h2, by omega, ?_, ?_⟩
  · intro hidle hge s' hs
    cases hs with
    | check_accept h hlt => omega
    | check_reject h hge₂ => exact ⟨Nat.le_refl _, Nat.le_refl _⟩
    | accept_incr h => rw [hidle] at h; cases h
    | handler_done ok h => exact ⟨by simp, by simp⟩
  · intro hidle hfull hhand
    have hmax : 0 < max := by omega
    refine ⟨_, _, ServerStep.handler_done true hhand, ?_,
      ServerStep.check_accept hidle ?_, rfl⟩
    · simp
      omega
    · simp
      omega

/-- Closed instance of `connection_ceiling_enforced`: with ceiling 1, the
state reached by admitting one connection (check passes, counter
incremented, handler spawned) respects the bounds. -/
theorem connection_ceiling_enforced_witness :
    (⟨1, 1, .idle⟩ : ServerState).active_connections ≤ 1 ∧
    (⟨1, 1, .idle⟩ : ServerState).handlers ≤ 1 := by
  have hr : ServerReaches 1 ⟨1, 1, .idle⟩ :=
    .step (.step .init (.check_accept rfl (by decide)))
      (.accept_incr rfl)
  have h := connection_ceiling_enforced 1 ⟨1, 1, .idle⟩ hr
  exact ⟨h.1, h.2.1⟩

set_option maxRecDepth 4000 in
theorem command_loop_trace (now : Nat) (cs : List Command) :
    ∀ (st : MState) (i₀ : Nat),
      command_loop st now i₀ cs =
        ((List.range cs.length).flatMap (fun k =>
          LoopEvent.dequeue (i₀ + k) ::
            ((dispatch (stateAfter st now (cs.take k)) now
                (cs.getD k default)).2.map
              (fun p => LoopEvent.respond (i₀ + k) p.1 p.2))),
         stateAfter st now cs) := by
  induction cs with
  | nil =>
      intro st i₀
      simp [command_loop, stateAfter]
  | cons c cs ih =>
      intro st i₀
      rcases hd : dispatch st now c with ⟨st', sends⟩
      have hloop : command_loop st now i₀ (c :: cs) =
          (LoopEvent.dequeue i₀ ::
             ((sends.map (fun p => LoopEvent.respond i₀ p.1 p.2))
               ++ (command_loop st' now (i₀ + 1) cs).1),
           (command_loop st' now (i₀ + 1) cs).2) := by
        simp [command_loop, hd]
      have hstate : stateAfter st now (c :: cs) = stateAfter st' now cs := by
        simp only [stateAfter, List.foldl_cons, hd]
      rw [hloop, ih st' (i₀ + 1), List.length_cons, List.range_succ_eq_map,
        List.flatMap_cons, List.flatMap_map, hstate, Prod.mk.injEq]
      refine ⟨?_, rfl⟩
      simp only [List.take_zero, List.getD_cons_zero, Nat.add_zero,
        stateAfter, List.foldl_nil, hd, List.cons_append,
        Nat.succ_eq_add_one, List.take_succ_cons, List.getD_cons_succ,
        List.foldl_cons]
      refine congrArg (List.cons (LoopEvent.dequeue i₀)) ?_
      refine congrArg (HAppend.hAppend _) ?_
      refine congrArg _ (funext fun a => ?_)
      have hidx : i₀ + 1 + a = i₀ + (a + 1) := by omega
      rw [hidx]

/-- C1: the manager construction spawns exactly one task, the dispatch
loop; and the loop's event trace over any arrival-ordered queue decomposes
into contiguous per-command blocks in arrival order — the i-th block is
the dequeue of command i followed immediately by the sends its completed
handler produced, the handler of command i runs against exactly the state
left behind by commands 0..i-1 (so each command runs to completion and its
response is sent before the next command is taken), and the loop's final
state is the sequential fold of all handlers. -/
theorem commands_processed_serially_in_arrival_order
    (cfg : ManagerConfig) (st : MState) (now i₀ : Nat) (cs : List Command) :
    (ControllerManager.new cfg).2 = [SpawnedTask.command_loop] ∧
    (command_loop st now i₀ cs).1 =
      (List.range cs.length).flatMap (fun k =>
        LoopEvent.dequeue (i₀ + k) ::
          ((dispatch (stateAfter st now (cs.take k)) now
              (cs.getD k default)).2.map
            (fun p => LoopEvent.respond (i₀ + k) p.1 p.2))) ∧
    (command_loop st now i₀ cs).2 = stateAfter st now cs := by
  refine ⟨rfl, ?_, ?_⟩
  · rw [command_loop_trace now cs st i₀]
  · rw [command_loop_trace now cs st i₀]
